import Mathlib

/-!
Verification of `torchio/transforms/augmentation/random_transform.py`.

The Python module defines the abstract base class `RandomTransform`.  We give
a shallow embedding of its methods:

* `parse_range` (and the wrappers `parse_degrees`, `parse_translation`):
  pure validation, embedded as a function into `Except PyError (ℚ × ℚ)`;
* `get_params`: the abstract method whose body is `pass`;
* `check_seed` / `RandomTransform.call` (`__call__`): embedded by explicit
  state passing over the process-wide generator state, together with an
  event trace recording seed resets and the delegated dispatch;
* `nib_to_sitk`: embedded by explicit state passing over an abstract
  filesystem; the `with NamedTemporaryFile(...)` block is translated to
  "create, run body, delete on every exit path", which is the semantics of
  the context manager.

Python numbers are modelled as rationals; Python exceptions as the
`PyError` type threaded through `Except`.
-/

/-- A Python exception, restricted to the kinds this module can raise.
`valueError` is the `ValueError` raised by the validation code
(the spec's InvalidArgument); `typeError` is raised by the runtime,
e.g. by `len` on an unsized object; `ioError` stands for failures of the
external nibabel/SimpleITK I/O calls. -/
inductive PyError where
  | valueError (msg : String)
  | typeError (msg : String)
  | ioError (msg : String)
  | notImplementedError
  deriving DecidableEq, Repr

/-- An argument passed to `parse_range`: either a single number
(`isinstance(nums_range, numbers.Number)` holds), or a sequence of numbers
(an object with `len` and unpacking), or an object that is neither a number
nor sized, such as `None` (for which `len` raises `TypeError`). -/
inductive PyValue where
  | scalar (s : ℚ)
  | seq (xs : List ℚ)
  | unsized
  deriving DecidableEq, Repr

/-- The message `len` produces on an unsized object such as `None`. -/
def lenTypeErrorMsg : String := "object of type 'NoneType' has no len()"

namespace RandomTransform

/-- Embedding of `RandomTransform.parse_range(nums_range, name)`.

```python
if isinstance(nums_range, numbers.Number):
    if nums_range < 0:
        raise ValueError(
            f'If {name} is a single number,'
            f' it must be positive, not {nums_range}')
    return (-nums_range, nums_range)
else:
    if len(nums_range) != 2:
        raise ValueError(
            f'If {name} is a sequence,'
            f' it must be of len 2, not {nums_range}')
    min_degree, max_degree = nums_range
    if min_degree > max_degree:
        raise ValueError(
            f'If {name} is a sequence, the second value must be'
            f' equal or greater than the first, not {nums_range}')
    return nums_range
```

On an argument that is neither a number nor sized, `len(nums_range)`
itself raises `TypeError` before any validation happens. -/
def parse_range (nums_range : PyValue) (name : String) :
    Except PyError (ℚ × ℚ) :=
  match nums_range with
  | .scalar s =>
      if s < 0 then
        .error (.valueError
          ("If " ++ (name ++ (" is a single number,"
            ++ (" it must be positive, not " ++ toString s)))))
      else
        .ok (-s, s)
  | .seq xs =>
      if xs.length ≠ 2 then
        .error (.valueError
          ("If " ++ (name ++ (" is a sequence,"
            ++ (" it must be of len 2, not " ++ toString xs)))))
      else
        match xs with
        | [min_degree, max_degree] =>
            if min_degree > max_degree then
              .error (.valueError
                ("If " ++ (name ++ (" is a sequence, the second value must be"
                  ++ (" equal or greater than the first, not "
                    ++ toString xs)))))
            else
              .ok (min_degree, max_degree)
        | _ => .error (.typeError "unreachable: length is 2")
  | .unsized => .error (.typeError lenTypeErrorMsg)

/-- Embedding of `parse_degrees(degrees)`:
`return self.parse_range(degrees, 'degrees')`. -/
def parse_degrees (degrees : PyValue) : Except PyError (ℚ × ℚ) :=
  parse_range degrees "degrees"

/-- Embedding of `parse_translation(translation)`:
`return self.parse_range(translation, 'translation')`. -/
def parse_translation (translation : PyValue) : Except PyError (ℚ × ℚ) :=
  parse_range translation "translation"

/-- Embedding of the body of `get_params` on the base class.  Its body is
`pass`, so a direct call returns Python's `None` (modelled as `.ok ()`)
and raises nothing. -/
def get_params : Except PyError Unit := .ok ()

/-- The `@abstractmethod` decorator is present on `get_params`: the method
is declared abstract (so ABC machinery blocks instantiating the base class
when active), but the decorator does not change what a direct call does. -/
def get_params_is_abstract : Bool := true

end RandomTransform

/-- A side effect observable during a `RandomTransform.__call__` run:
a reset of the process-wide torch generator to a seed, or the call into
the base `Transform.__call__` dispatch. -/
inductive Event where
  | seedReset (k : ℕ)
  | dispatch
  deriving DecidableEq, Repr

namespace RandomTransform

/-- Embedding of `check_seed`:

```python
if self.seed is not None:
    torch.manual_seed(self.seed)
```

`torch.manual_seed(k)` deterministically resets the process-wide generator
state to a state that is a function of `k` alone; we model generator
states as naturals and the reset as setting the state to `k`.  The result
is the generator state after the call, together with the trace of events
it emitted. -/
def check_seed (seed : Option ℕ) (g : ℕ) : ℕ × List Event :=
  match seed with
  | some k => (k, [Event.seedReset k])
  | none => (g, [])

/-- Modelled from the spec: the base `Transform.__call__` dispatch lives in
`torchio/transforms/transform.py`, which is not part of the sources here.
The spec says only that the delegated augmentation draws its random
parameters from the process-wide generator, so the dispatch is modelled as
an arbitrary function of the generator state and the sample, returning a
result and the generator state it leaves behind. -/
def Dispatch (Sample Result : Type) : Type := ℕ → Sample → Result × ℕ

/-- Embedding of `RandomTransform.__call__`:

```python
def __call__(self, sample):
    self.check_seed()
    return super().__call__(sample)
```

State passing: the generator state `g` is threaded through `check_seed`
and then through the base dispatch; the trace records the emitted events
in order. -/
def call {Sample Result : Type} (dispatch : Dispatch Sample Result)
    (seed : Option ℕ) (sample : Sample) (g : ℕ) :
    Result × ℕ × List Event :=
  let seeded := check_seed seed g
  let out := dispatch seeded.1 sample
  (out.1, out.2, seeded.2 ++ [Event.dispatch])

end RandomTransform

/-- An abstract filesystem: the list of paths of files that exist.
Paths are modelled as naturals. -/
def FS : Type := List ℕ

/-- A fresh path not present on the filesystem, as produced by
`NamedTemporaryFile` (which guarantees a unique name). -/
def FS.fresh (fs : FS) : ℕ := fs.foldr max 0 + 1

/-- Create a file at `p`. -/
def FS.create (fs : FS) (p : ℕ) : FS := p :: fs

/-- Delete the file at `p`, as the `NamedTemporaryFile` context manager
does on exit. -/
def FS.delete (fs : FS) (p : ℕ) : FS := fs.filter (· ≠ p)

/-- Membership: the file at `p` exists on the filesystem `fs`. -/
def FS.exists_file (fs : FS) (p : ℕ) : Bool := fs.contains p

namespace RandomTransform

/-- Embedding of `nib_to_sitk(array, affine)`:

```python
with NamedTemporaryFile(suffix='.nii') as f:
    nib.Nifti1Image(array, affine).to_filename(f.name)
    image = sitk.ReadImage(f.name)
return image
```

The external I/O calls are opaque: `writeOk` says whether
`to_filename` succeeds and `readOk` whether `sitk.ReadImage` succeeds
(their numeric content does not matter for the claims, so the produced
image is abstracted to the temp path it was read from).  The
`with` block is translated by its semantics: `NamedTemporaryFile` creates
a uniquely named file, the body runs, and the file is deleted on exit
whether the body returns or raises. -/
def nib_to_sitk (fs : FS) (writeOk readOk : Bool) :
    Except PyError ℕ × FS :=
  let f := fs.fresh
  let fs1 := fs.create f
  let body : Except PyError ℕ :=
    if !writeOk then .error (.ioError "to_filename failed")
    else if !readOk then .error (.ioError "ReadImage failed")
    else .ok f
  let fs2 := fs1.delete f
  (body, fs2)

end RandomTransform

section Claims

open RandomTransform

/-- Claim C1: for every numeric scalar `s` with `s ≥ 0`,
`parse_range(s, name)` returns the pair `(-s, s)`. -/
theorem parse_range_scalar_nonneg (s : ℚ) (name : String) (h : 0 ≤ s) :
    parse_range (.scalar s) name = .ok (-s, s) := by
  simp [parse_range, not_lt.mpr h]

/-- Witness for `parse_range_scalar_nonneg` at `s = 10`, `name = "degrees"`. -/
theorem parse_range_scalar_nonneg_witness :
    (0 : ℚ) ≤ 10 ∧ parse_range (.scalar 10) "degrees" = .ok (-10, 10) :=
  ⟨by norm_num, parse_range_scalar_nonneg 10 "degrees" (by norm_num)⟩

/-- Claim C2: for every sequence, `parse_range` fails with a `ValueError`
(the spec's InvalidArgument) iff the length is not 2 or the first element
exceeds the second, and every 2-element sequence `[a, b]` with `a ≤ b` is
returned unchanged. -/
theorem parse_range_seq_spec (xs : List ℚ) (name : String) :
    ((∃ msg, parse_range (.seq xs) name = .error (.valueError msg)) ↔
      xs.length ≠ 2 ∨ ∃ a b, xs = [a, b] ∧ b < a)
    ∧ ∀ a b : ℚ, a ≤ b → parse_range (.seq [a, b]) name = .ok (a, b) := by
  constructor
  · match xs with
    | [] => simp [parse_range]
    | [a] => simp [parse_range]
    | [a, b] =>
        by_cases hab : b < a
        · simp [parse_range, hab]
          exact ⟨a, b, ⟨rfl, rfl⟩, hab⟩
        · simp [parse_range, hab]
          exact not_lt.mp hab
    | a :: b :: c :: t => simp [parse_range]
  · intro a b hab
    simp [parse_range, not_lt.mpr hab]

/-- Witness for `parse_range_seq_spec` at `xs = [5, 15]`,
`name = "degrees"`. -/
theorem parse_range_seq_spec_witness :
    parse_range (.seq [5, 15]) "degrees" = .ok (5, 15) :=
  (parse_range_seq_spec [5, 15] "degrees").2 5 15 (by norm_num)

/-- Claim C3: with a seed `k` supplied, two `__call__` runs on the same
sample agree exactly, whatever the generator state was before each run:
the delegated computation (result, final generator state, and event trace)
is a deterministic function of the seed and the sample. -/
theorem call_seeded_deterministic {Sample Result : Type}
    (dispatch : Dispatch Sample Result) (k : ℕ) (sample : Sample)
    (g₁ g₂ : ℕ) :
    call dispatch (some k) sample g₁ = call dispatch (some k) sample g₂ :=
  rfl

/-- Claim C4: for every scalar `s < 0`, `parse_range(s, name)` fails with a
`ValueError` whose message contains the supplied `name` label. -/
theorem parse_range_scalar_neg (s : ℚ) (name : String) (h : s < 0) :
    ∃ pre post,
      parse_range (.scalar s) name = .error (.valueError (pre ++ (name ++ post))) := by
  refine ⟨"If ", " is a single number," ++ (" it must be positive, not " ++ toString s), ?_⟩
  simp [parse_range, h]

/-- Witness for `parse_range_scalar_neg` at `s = -1`, `name = "degrees"`. -/
theorem parse_range_scalar_neg_witness :
    (-1 : ℚ) < 0 ∧ ∃ pre post,
      parse_range (.scalar (-1)) "degrees" = .error (.valueError (pre ++ ("degrees" ++ post))) :=
  ⟨by norm_num, parse_range_scalar_neg (-1) "degrees" (by norm_num)⟩

/-- Claim C5 counterexample: invoking `get_params` on the base class does
not signal `NotImplementedError`; the body is `pass`, so the call returns
`None`. -/
theorem get_params_not_notimplemented :
    RandomTransform.get_params ≠ .error PyError.notImplementedError := by
  simp [RandomTransform.get_params]

/-- Claim C5 (amended): invoking `get_params` on the base class returns
`None` without signalling; the method is merely marked abstract
(so ABC machinery rejects instantiating the base class), and a direct
call does not raise `NotImplementedError`. -/
theorem get_params_returns_none :
    RandomTransform.get_params = .ok () ∧ get_params_is_abstract = true :=
  ⟨rfl, rfl⟩

/-- Claim C6: the temporary file created during `nib_to_sitk` does not
exist on the filesystem after the call returns, whether the body
succeeded or raised (all four success/failure combinations of the two
external I/O calls). -/
theorem nib_to_sitk_temp_file_removed (fs : FS) (writeOk readOk : Bool) :
    ¬ FS.exists_file (nib_to_sitk fs writeOk readOk).2 fs.fresh := by
  simp [nib_to_sitk, FS.exists_file, FS.delete, FS.create, List.mem_filter]

/-- Claim C7: `__call__` emits exactly one base-dispatch event, after the
seed reset when a seed was supplied and with no reset event otherwise,
and with seed `None` the generator state handed to the dispatch is the
unmodified incoming state. -/
theorem call_dispatch_once {Sample Result : Type}
    (dispatch : Dispatch Sample Result) (seed : Option ℕ) (sample : Sample)
    (g : ℕ) :
    ((call dispatch seed sample g).2.2 =
      match seed with
      | some k => [Event.seedReset k, Event.dispatch]
      | none => [Event.dispatch])
    ∧ List.count Event.dispatch (call dispatch seed sample g).2.2 = 1
    ∧ check_seed none g = (g, []) := by
  refine ⟨?_, ?_, rfl⟩ <;>
    cases seed <;>
      simp [call, check_seed, List.count_cons]

/-- Claim C8: `parse_degrees` and `parse_translation` are definitionally
the fixed-label instances of `parse_range`, for every input. -/
theorem parse_wrappers_eq (x : PyValue) :
    parse_degrees x = parse_range x "degrees"
    ∧ parse_translation x = parse_range x "translation" :=
  ⟨rfl, rfl⟩

/-- Claim C9: every pair successfully returned by `parse_range` satisfies
`min ≤ max`. -/
theorem parse_range_ok_le (x : PyValue) (name : String) (mn mx : ℚ)
    (h : parse_range x name = .ok (mn, mx)) : mn ≤ mx := by
  cases x with
  | scalar s =>
      by_cases hs : s < 0
      · simp [parse_range, hs] at h
      · simp [parse_range, hs] at h
        obtain ⟨h1, h2⟩ := h
        subst h1; subst h2
        linarith [not_lt.mp hs]
  | seq xs =>
      match xs with
      | [] => simp [parse_range] at h
      | [a] => simp [parse_range] at h
      | [a, b] =>
          by_cases hab : b < a
          · simp [parse_range, hab] at h
          · simp [parse_range, hab] at h
            obtain ⟨h1, h2⟩ := h
            subst h1; subst h2
            exact not_lt.mp hab
      | a :: b :: c :: t => simp [parse_range] at h
  | unsized => simp [parse_range] at h

/-- Witness for `parse_range_ok_le` at the scalar input `1`. -/
theorem parse_range_ok_le_witness : (-1 : ℚ) ≤ 1 :=
  parse_range_ok_le (.scalar 1) "w" (-1) 1 (by norm_num [parse_range])

/-- Claim C10: on an input that is neither a number nor sized (such as
`None`), `parse_range` fails, but with a `TypeError` from the `len` call,
not with the `ValueError` the validation taxonomy uses. -/
theorem parse_range_unsized_typeerror (name : String) :
    ∃ e, parse_range PyValue.unsized name = .error e
      ∧ ∀ msg, e ≠ PyError.valueError msg :=
  ⟨.typeError lenTypeErrorMsg, rfl, fun _ h => PyError.noConfusion h⟩

end Claims
